import Mathlib

/-!
Verification of `pangu.py` (paranoid text spacing), version 3.3.1.

The core of the program is `spacing_text`, an ordered pipeline of thirteen
`re.sub` substitutions over a unicode string followed by a final
`str.strip()`.  All patterns used by the program are flat sequences of
single-character classes, each either mandatory (`[...]`), optional-repeated
(`[...]*`, `\s*`, `.*?`) or mandatory-repeated (`[...]+`, `.+?`, `\S+`),
with Python's leftmost-match, greedy/lazy backtracking semantics.  We embed
this fragment of the regex language directly: a pattern is a `List RItem`,
matching is a backtracking matcher that returns the list of substrings
consumed by each item (from which every numbered group of the original
patterns can be reassembled), and `re.sub` is `subAll`, which scans left to
right, replaces each non-overlapping leftmost match and resumes after it.

Strings are modelled as `List Char` (Python 3 strings are sequences of code
points).  Character classes are translated from the pattern literals of the
source into numeric range predicates on code points.
-/

/-- Code point of a character. -/
def cp (c : Char) : Nat := c.toNat

/-- Membership of a code point in an inclusive range. -/
def inR (lo hi n : Nat) : Bool := decide (lo ≤ n ∧ n ≤ hi)

/-- The full CJK class used by most patterns of the source:
`[⺀-⻿⼀-⿟぀-ゟ゠-ヿ㄀-ㄯ㈀-㋿㐀-䶿一-鿿豈-﫿]`. -/
def isCJK (c : Char) : Bool :=
  let n := cp c
  inR 0x2e80 0x2eff n || inR 0x2f00 0x2fdf n || inR 0x3040 0x309f n ||
  inR 0x30a0 0x30ff n || inR 0x3100 0x312f n || inR 0x3200 0x32ff n ||
  inR 0x3400 0x4dbf n || inR 0x4e00 0x9fff n || inR 0xf900 0xfaff n

/-- The reduced CJK class of `QUOTE_CJK_RE`:
`[぀-ㄯ㈀-㋿㐀-䶿一-鿿豈-﫿]`
(it omits U+2E80-2EFF and U+2F00-2FDF). -/
def isCJKRed (c : Char) : Bool :=
  let n := cp c
  inR 0x3040 0x312f n || inR 0x3200 0x32ff n || inR 0x3400 0x4dbf n ||
  inR 0x4e00 0x9fff n || inR 0xf900 0xfaff n

/-- `["']`. -/
def isQuote (c : Char) : Bool := cp c == 0x22 || cp c == 0x27

/-- Open class of `FIX_QUOTE_RE`: `["'\(\[\{<“]`. -/
def isOpenFix (c : Char) : Bool :=
  let n := cp c
  n == 0x22 || n == 0x27 || n == 0x28 || n == 0x5b || n == 0x7b ||
  n == 0x3c || n == 0x201c

/-- Close class of `FIX_QUOTE_RE`: `["'\)\]\}>”]`. -/
def isCloseFix (c : Char) : Bool :=
  let n := cp c
  n == 0x22 || n == 0x27 || n == 0x29 || n == 0x5d || n == 0x7d ||
  n == 0x3e || n == 0x201d

/-- Python's `\s` over `str` (also the set stripped by `str.strip()`):
unicode whitespace, i.e. 0x09-0x0D, 0x1C-0x1F, space, 0x85, NBSP, 0x1680,
0x2000-0x200A, 0x2028, 0x2029, 0x202F, 0x205F and 0x3000. -/
def isPySpace (c : Char) : Bool :=
  let n := cp c
  inR 0x09 0x0d n || inR 0x1c 0x1f n || n == 0x20 || n == 0x85 ||
  n == 0xa0 || n == 0x1680 || inR 0x2000 0x200a n || n == 0x2028 ||
  n == 0x2029 || n == 0x202f || n == 0x205f || n == 0x3000

/-- Python's `\S`. -/
def isNonSp (c : Char) : Bool := !isPySpace c

/-- Python's `.` without `DOTALL`: everything but the newline. -/
def isDot (c : Char) : Bool := !(cp c == 0x0a)

/-- Literal `#`. -/
def isHash (c : Char) : Bool := cp c == 0x23

/-- Literal space (group 2 of `FIX_SINGLE_QUOTE_RE` is `( )`). -/
def isSpaceLit (c : Char) : Bool := cp c == 0x20

/-- Literal `'`. -/
def isSQ (c : Char) : Bool := cp c == 0x27

/-- `[A-Za-z]`. -/
def isAZ (c : Char) : Bool :=
  let n := cp c
  inR 0x41 0x5a n || inR 0x61 0x7a n

/-- `[A-Za-z0-9]`. -/
def isAlnum (c : Char) : Bool :=
  let n := cp c
  inR 0x41 0x5a n || inR 0x61 0x7a n || inR 0x30 0x39 n

/-- Operator class `[\+\-\*\/=&\\|<>]`. -/
def isOp (c : Char) : Bool :=
  let n := cp c
  n == 0x2b || n == 0x2d || n == 0x2a || n == 0x2f || n == 0x3d ||
  n == 0x26 || n == 0x5c || n == 0x7c || n == 0x3c || n == 0x3e

/-- Bracket open class `[\(\[\{<“]` (used by `CJK_BRACKET_CJK_RE` and
`FIX_BRACKET_RE`). -/
def isOpenB (c : Char) : Bool :=
  let n := cp c
  n == 0x28 || n == 0x5b || n == 0x7b || n == 0x3c || n == 0x201c

/-- Bracket close class `[\)\]\}>”]`. -/
def isCloseB (c : Char) : Bool :=
  let n := cp c
  n == 0x29 || n == 0x5d || n == 0x7d || n == 0x3e || n == 0x201d

/-- Second class of `CJK_BRACKET_RE`: `[\(\[\{<“>]` (note the extra `>`). -/
def isOpenB2 (c : Char) : Bool := isOpenB c || cp c == 0x3e

/-- First class of `BRACKET_CJK_RE`: `[\)\]\}>”<]` (note the extra `<`). -/
def isCloseB2 (c : Char) : Bool := isCloseB c || cp c == 0x3c

/-- Symbol class of `FIX_SYMBOL_RE`: `[~!;:,\.\?…]`. -/
def isSymB (c : Char) : Bool :=
  let n := cp c
  n == 0x7e || n == 0x21 || n == 0x3b || n == 0x3a || n == 0x2c ||
  n == 0x2e || n == 0x3f || n == 0x2026

/-- Second class of `CJK_ANS_RE`:
`[A-Za-z0-9\x60\$%\^&\*\-=\+\\\|/@¡-ÿ•‧⅐-↏]`
(no `~`, no U+2026). -/
def isAnsA (c : Char) : Bool :=
  let n := cp c
  isAlnum c || n == 0x60 || n == 0x24 || n == 0x25 || n == 0x5e ||
  n == 0x26 || n == 0x2a || n == 0x2d || n == 0x3d || n == 0x2b ||
  n == 0x5c || n == 0x7c || n == 0x2f || n == 0x40 || inR 0xa1 0xff n ||
  n == 0x2022 || n == 0x2027 || inR 0x2150 0x218f n

/-- First class of `ANS_CJK_RE`:
`[A-Za-z0-9\x60~\$%\^&\*\-=\+\\\|/!;:,\.\?¡-ÿ•…‧⅐-↏]`
(no `@`). -/
def isAnsB (c : Char) : Bool :=
  let n := cp c
  isAlnum c || n == 0x60 || n == 0x7e || n == 0x24 || n == 0x25 ||
  n == 0x5e || n == 0x26 || n == 0x2a || n == 0x2d || n == 0x3d ||
  n == 0x2b || n == 0x5c || n == 0x7c || n == 0x2f || n == 0x21 ||
  n == 0x3b || n == 0x3a || n == 0x2c || n == 0x2e || n == 0x3f ||
  inR 0xa1 0xff n || n == 0x2022 || n == 0x2026 || n == 0x2027 ||
  inR 0x2150 0x218f n

/-- Modelled from the spec (section 3): the `ANS` character class as the
specification words it — ASCII letters, digits, the symbols
`` ` ~ $ % ^ & * - = + \ | / @ ``, Latin-1 supplement U+00A1-00FF, U+2022,
U+2026, U+2027 and U+2150-218F.  Used only to state claims that quantify
over the spec's ANS class; the executable pipeline uses the code's own
classes `isAnsA` / `isAnsB`. -/
def isAnsSpec (c : Char) : Bool :=
  let n := cp c
  isAlnum c || n == 0x60 || n == 0x7e || n == 0x24 || n == 0x25 ||
  n == 0x5e || n == 0x26 || n == 0x2a || n == 0x2d || n == 0x3d ||
  n == 0x2b || n == 0x5c || n == 0x7c || n == 0x2f || n == 0x40 ||
  inR 0xa1 0xff n || n == 0x2022 || n == 0x2026 || n == 0x2027 ||
  inR 0x2150 0x218f n

/-- One item of a (flat) pattern: either a single mandatory character of a
class, or a quantified class `rep p atLeastOne greedy` standing for `p*`,
`p+`, `p*?` or `p+?`. -/
inductive RItem where
  | one : (Char → Bool) → RItem
  | rep : (Char → Bool) → Bool → Bool → RItem

/-- Minimum number of characters an item must consume. -/
def RItem.lo : RItem → Nat
  | .one _ => 1
  | .rep _ a _ => if a then 1 else 0

/-- Minimum length of a match of a whole pattern. -/
def itemsLo (items : List RItem) : Nat := (items.map RItem.lo).sum

/-- Backtracking search over candidate repeat lengths, longest first:
tries `f (lo+k)`, `f (lo+k-1)`, ..., `f lo`. -/
def tryDown {α : Type} (f : Nat → Option α) (lo : Nat) : Nat → Option α
  | 0 => f lo
  | k+1 =>
    match f (lo + (k+1)) with
    | some r => some r
    | none => tryDown f lo k

/-- Backtracking search over candidate repeat lengths, shortest first:
tries `f lo`, `f (lo+1)`, ..., `f (lo+k)`. -/
def tryUp {α : Type} (f : Nat → Option α) (lo : Nat) : Nat → Option α
  | 0 => f lo
  | k+1 =>
    match f lo with
    | some r => some r
    | none => tryUp f (lo+1) k

/-- Match a pattern at the beginning of `s` with Python's backtracking
semantics (a greedy quantifier prefers the longest repetition, a lazy one
the shortest; an earlier quantifier's preference dominates a later one's).
On success, returns the substring consumed by each item in order, and the
remaining suffix of `s`.  A quantified class can never consume more than
the maximal run of its class at the current position, so candidate lengths
range over `lo .. (takeWhile p s).length`. -/
def matchItems : List RItem → List Char → Option (List (List Char) × List Char)
  | [], s => some ([], s)
  | RItem.one p :: rest, s =>
    match s with
    | [] => none
    | c :: cs =>
      if p c then
        match matchItems rest cs with
        | some (gs, r) => some ([c] :: gs, r)
        | none => none
      else none
  | RItem.rep p a g :: rest, s =>
    let L := (s.takeWhile p).length
    let lo := if a then 1 else 0
    if L < lo then none
    else
      let f : Nat → Option (List (List Char) × List Char) := fun l =>
        match matchItems rest (s.drop l) with
        | some (gs, r) => some (s.take l :: gs, r)
        | none => none
      if g then tryDown f lo (L - lo) else tryUp f lo (L - lo)

/-- Fuelled core of `re.sub`: scan left to right; at each position try to
match; on a match emit the replacement and resume after the match, else
keep the character and move on.  Every pattern of the program consumes at
least one character per match, so `fuel = s.length` always suffices and the
fuel-exhaustion branch is unreachable. -/
def subAllGo (items : List RItem) (repl : List (List Char) → List Char) :
    Nat → List Char → List Char
  | _, [] => []
  | 0, s => s
  | fuel+1, c :: cs =>
    match matchItems items (c :: cs) with
    | some (gs, r) => repl gs ++ subAllGo items repl fuel r
    | none => c :: subAllGo items repl fuel cs

/-- `re.sub(pattern, repl, s)` for the flat patterns of the program. -/
def subAll (items : List RItem) (repl : List (List Char) → List Char)
    (s : List Char) : List Char :=
  subAllGo items repl s.length s

/- The thirteen patterns of the source, in source order. -/

def CJK_QUOTE_RE : List RItem := [.one isCJK, .one isQuote]
def QUOTE_CJK_RE : List RItem := [.one isQuote, .one isCJKRed]
def FIX_QUOTE_RE : List RItem :=
  [.rep isOpenFix true true, .rep isPySpace false true, .rep isDot true false,
   .rep isPySpace false true, .rep isCloseFix true true]
def FIX_SINGLE_QUOTE_RE : List RItem :=
  [.one isCJK, .one isSpaceLit, .one isSQ, .one isAZ]
def CJK_HASH_RE : List RItem := [.one isCJK, .one isHash, .rep isNonSp true true]
def HASH_CJK_RE : List RItem := [.rep isNonSp true true, .one isHash, .one isCJK]
def CJK_OPERATOR_ANS_RE : List RItem := [.one isCJK, .one isOp, .one isAlnum]
def ANS_OPERATOR_CJK_RE : List RItem := [.one isAlnum, .one isOp, .one isCJK]
def CJK_BRACKET_CJK_RE : List RItem :=
  [.one isCJK, .rep isOpenB true true, .rep isDot false false,
   .rep isCloseB true true, .one isCJK]
def CJK_BRACKET_RE : List RItem := [.one isCJK, .one isOpenB2]
def BRACKET_CJK_RE : List RItem := [.one isCloseB2, .one isCJK]
def FIX_BRACKET_RE : List RItem :=
  [.rep isOpenB true true, .rep isPySpace false true, .rep isDot true false,
   .rep isPySpace false true, .rep isCloseB true true]
def FIX_SYMBOL_RE : List RItem := [.one isCJK, .one isSymB, .one isAlnum]
def CJK_ANS_RE : List RItem := [.one isCJK, .one isAnsA]
def ANS_CJK_RE : List RItem := [.one isAnsB, .one isCJK]

/- Replacement templates.  Each template receives the per-item consumed
substrings; the numbered groups of the original pattern are contiguous
unions of items, reassembled here. -/

/-- Template `\1 \2` for two-item patterns. -/
def repl12sp : List (List Char) → List Char
  | [g1, g2] => g1 ++ (' ' :: g2)
  | _ => []

/-- Template `\1\3\5` of `FIX_QUOTE_RE` / `FIX_BRACKET_RE` (drop the two
`\s*` groups). -/
def repl135 : List (List Char) → List Char
  | [g1, _, g3, _, g5] => g1 ++ g3 ++ g5
  | _ => []

/-- Template `\1\3\4` of `FIX_SINGLE_QUOTE_RE` (drop the literal space). -/
def repl134 : List (List Char) → List Char
  | [g1, _, g3, g4] => g1 ++ g3 ++ g4
  | _ => []

/-- Template `\1 \2` of `CJK_HASH_RE`, whose group 2 is `#(\S+)`
(items 2 and 3). -/
def replHashA : List (List Char) → List Char
  | [g1, g2, g3] => g1 ++ (' ' :: (g2 ++ g3))
  | _ => []

/-- Template `\1 \3` of `HASH_CJK_RE`, whose group 1 is `(\S+)#`
(items 1 and 2). -/
def replHashB : List (List Char) → List Char
  | [g1, g2, g3] => (g1 ++ g2) ++ (' ' :: g3)
  | _ => []

/-- Template `\1 \2 \3` of the operator patterns. -/
def replOp : List (List Char) → List Char
  | [g1, g2, g3] => g1 ++ (' ' :: (g2 ++ (' ' :: g3)))
  | _ => []

/-- Template `\1 \2 \4` of `CJK_BRACKET_CJK_RE`, whose group 2 is the whole
bracketed run (items 2-4) and whose group 4 is the trailing CJK (item 5). -/
def replCBC : List (List Char) → List Char
  | [g1, g2, g3, g4, g5] => g1 ++ (' ' :: (g2 ++ g3 ++ g4 ++ (' ' :: g5)))
  | _ => []

/-- Template `\1\2 \3` of `FIX_SYMBOL_RE`. -/
def replSym : List (List Char) → List Char
  | [g1, g2, g3] => g1 ++ g2 ++ (' ' :: g3)
  | _ => []

/-- Python's `str.strip()`: remove unicode whitespace from both ends. -/
def pyStrip (l : List Char) : List Char :=
  ((l.dropWhile isPySpace).reverse.dropWhile isPySpace).reverse

/-- The bracket-spacing stage of `spacing_text` (source lines 81-87, without
the final `FIX_BRACKET_RE` cleanup): try the CJK-bracket-CJK collapsing
substitution; only when it left the string unchanged (checked by comparing
the strings for equality) apply the two single-sided bracket substitutions. -/
def bracketPhase (t : List Char) : List Char :=
  let tmp := subAll CJK_BRACKET_CJK_RE replCBC t
  if t = tmp then
    subAll BRACKET_CJK_RE repl12sp (subAll CJK_BRACKET_RE repl12sp tmp)
  else tmp

/-- `pangu.spacing_text`: the ordered substitution pipeline of the source,
on code-point sequences. -/
def spacing_text (text : List Char) : List Char :=
  if text.length < 2 then text
  else
    let t1 := subAll CJK_QUOTE_RE repl12sp text
    let t2 := subAll QUOTE_CJK_RE repl12sp t1
    let t3 := subAll FIX_QUOTE_RE repl135 t2
    let t4 := subAll FIX_SINGLE_QUOTE_RE repl134 t3
    let t5 := subAll CJK_HASH_RE replHashA t4
    let t6 := subAll HASH_CJK_RE replHashB t5
    let t7 := subAll CJK_OPERATOR_ANS_RE replOp t6
    let t8 := subAll ANS_OPERATOR_CJK_RE replOp t7
    let t9 := bracketPhase t8
    let t10 := subAll FIX_BRACKET_RE repl135 t9
    let t11 := subAll FIX_SYMBOL_RE replSym t10
    let t12 := subAll CJK_ANS_RE repl12sp t11
    let t13 := subAll ANS_CJK_RE repl12sp t12
    pyStrip t13

/-- `spacing_text` on `String`. -/
def spacing_textS (s : String) : String := String.mk (spacing_text s.data)

/-! ### Generic properties of the matcher -/

/-- `takeWhile` never yields more than the input. -/
theorem takeWhile_len_le (p : Char → Bool) :
    ∀ s : List Char, (s.takeWhile p).length ≤ s.length := by
  intro s
  induction s with
  | nil => simp
  | cons c cs ih =>
    rw [List.takeWhile_cons]
    cases hp : p c <;> simp only [hp, if_true, if_false, Bool.false_eq_true,
      List.length_cons, List.length_nil] <;> omega

/-- A downward search fails when every candidate fails. -/
theorem tryDown_eq_none {α : Type} {f : Nat → Option α} {lo : Nat}
    (h : ∀ l, lo ≤ l → f l = none) : ∀ k, tryDown f lo k = none := by
  intro k
  induction k with
  | zero => exact h lo (Nat.le_refl lo)
  | succ k ih => rw [tryDown, h (lo + (k+1)) (by omega), ih]

/-- An upward search fails when every candidate fails. -/
theorem tryUp_eq_none {α : Type} {f : Nat → Option α} :
    ∀ (k lo : Nat), (∀ l, lo ≤ l → f l = none) → tryUp f lo k = none := by
  intro k
  induction k with
  | zero => intro lo h; exact h lo (Nat.le_refl lo)
  | succ k ih =>
    intro lo h
    rw [tryUp, h lo (Nat.le_refl lo)]
    exact ih (lo+1) (fun l hl => h l (by omega))

/-- A successful downward search comes from a candidate in range. -/
theorem tryDown_eq_some {α : Type} {f : Nat → Option α} {lo : Nat} {x : α} :
    ∀ k, tryDown f lo k = some x → ∃ l, lo ≤ l ∧ l ≤ lo + k ∧ f l = some x := by
  intro k
  induction k with
  | zero => intro h; exact ⟨lo, Nat.le_refl lo, by omega, h⟩
  | succ k ih =>
    intro h
    rw [tryDown] at h
    cases hf : f (lo + (k+1)) with
    | some r =>
      rw [hf] at h
      exact ⟨lo + (k+1), by omega, by omega, by rw [hf]; exact h⟩
    | none =>
      rw [hf] at h
      obtain ⟨l, h1, h2, h3⟩ := ih h
      exact ⟨l, h1, by omega, h3⟩

/-- A successful upward search comes from a candidate in range. -/
theorem tryUp_eq_some {α : Type} {f : Nat → Option α} {x : α} :
    ∀ (k lo : Nat), tryUp f lo k = some x →
      ∃ l, lo ≤ l ∧ l ≤ lo + k ∧ f l = some x := by
  intro k
  induction k with
  | zero => intro lo h; exact ⟨lo, Nat.le_refl lo, by omega, h⟩
  | succ k ih =>
    intro lo h
    rw [tryUp] at h
    cases hf : f lo with
    | some r =>
      rw [hf] at h
      exact ⟨lo, Nat.le_refl lo, by omega, by rw [hf]; exact h⟩
    | none =>
      rw [hf] at h
      obtain ⟨l, h1, h2, h3⟩ := ih (lo+1) h
      exact ⟨l, by omega, by omega, h3⟩

/-- A pattern cannot match inside a string shorter than its mandatory
minimum. -/
theorem matchItems_short :
    ∀ (items : List RItem) (s : List Char), s.length < itemsLo items →
      matchItems items s = none := by
  intro items
  induction items with
  | nil => intro s h; simp [itemsLo] at h
  | cons it rest ih =>
    intro s h
    cases it with
    | one p =>
      cases s with
      | nil => rfl
      | cons c cs =>
        simp only [itemsLo, List.map_cons, List.sum_cons, RItem.lo,
          List.length_cons] at h
        have hcs : cs.length < itemsLo rest := by simp only [itemsLo]; omega
        rw [matchItems]
        by_cases hp : p c = true
        · rw [if_pos hp, ih cs hcs]
        · rw [if_neg hp]
    | rep p a g =>
      simp only [itemsLo, List.map_cons, List.sum_cons, RItem.lo] at h
      rw [matchItems]
      by_cases hL : (s.takeWhile p).length < (if a then 1 else 0)
      · rw [if_pos hL]
      · rw [if_neg hL]
        have hTW := takeWhile_len_le p s
        have hlo : (if a then 1 else 0) ≤ s.length := by omega
        have hnone : ∀ l, (if a then 1 else 0) ≤ l →
            (match matchItems rest (s.drop l) with
             | some (gs, r) => some (s.take l :: gs, r)
             | none => none) = none := by
          intro l hl
          have hlen : (s.drop l).length < itemsLo rest := by
            rw [List.length_drop]
            simp only [itemsLo]
            omega
          rw [ih _ hlen]
        by_cases hg : g = true
        · rw [if_pos hg]; exact tryDown_eq_none hnone _
        · rw [if_neg hg]; exact tryUp_eq_none _ _ hnone

/-- `subAllGo` leaves a string alone when the pattern needs more characters
than remain. -/
theorem subAllGo_short {items : List RItem}
    {repl : List (List Char) → List Char} :
    ∀ (fuel : Nat) (s : List Char), s.length < itemsLo items →
      subAllGo items repl fuel s = s := by
  intro fuel
  induction fuel with
  | zero => intro s h; cases s <;> rfl
  | succ fuel ih =>
    intro s h
    cases s with
    | nil => rfl
    | cons c cs =>
      rw [subAllGo, matchItems_short _ _ h]
      have : cs.length < itemsLo items := by
        simp only [List.length_cons] at h; omega
      rw [ih cs this]

/-- `re.sub` leaves a string alone when the pattern needs more characters
than the string has. -/
theorem subAll_short {items : List RItem} {repl : List (List Char) → List Char}
    {s : List Char} (h : s.length < itemsLo items) : subAll items repl s = s :=
  subAllGo_short s.length s h

/-- A match consumes a prefix of the string: the consumed chunks flatten,
together with the returned remainder, back to the input. -/
theorem matchItems_flatten :
    ∀ (items : List RItem) (s : List Char) (gs : List (List Char))
      (r : List Char), matchItems items s = some (gs, r) →
      gs.flatten ++ r = s := by
  intro items
  induction items with
  | nil =>
    intro s gs r h
    rw [matchItems] at h
    cases h
    simp
  | cons it rest ih =>
    intro s gs r h
    cases it with
    | one p =>
      cases s with
      | nil => exact absurd h (by rw [matchItems]; simp)
      | cons c cs =>
        rw [matchItems] at h
        by_cases hp : p c = true
        · rw [if_pos hp] at h
          cases hm : matchItems rest cs with
          | none => rw [hm] at h; cases h
          | some pr =>
            obtain ⟨gs', r'⟩ := pr
            rw [hm] at h
            cases h
            have := ih cs gs' _ hm
            simp [this]
        · rw [if_neg hp] at h; cases h
    | rep p a g =>
      rw [matchItems] at h
      by_cases hL : ((s.takeWhile p).length) < (if a then 1 else 0)
      · rw [if_pos hL] at h; cases h
      · rw [if_neg hL] at h
        have key : ∀ l, (match matchItems rest (s.drop l) with
              | some (gs, r) => some (s.take l :: gs, r)
              | none => none) = some (gs, r) → gs.flatten ++ r = s := by
          intro l hl
          cases hm : matchItems rest (s.drop l) with
          | none => rw [hm] at hl; cases hl
          | some pr =>
            obtain ⟨gs', r'⟩ := pr
            rw [hm] at hl
            cases hl
            have := ih _ gs' _ hm
            simp only [List.flatten_cons, List.append_assoc, this,
              List.take_append_drop]
        by_cases hg : g = true
        · rw [if_pos hg] at h
          obtain ⟨l, _, _, hf⟩ := tryDown_eq_some _ h
          exact key l hf
        · rw [if_neg hg] at h
          obtain ⟨l, _, _, hf⟩ := tryUp_eq_some _ _ h
          exact key l hf

/-- Any character of `s.take l` satisfies `p` when `l` stays within the
maximal run `s.takeWhile p`. -/
theorem take_pred_of_le_takeWhile (p : Char → Bool) :
    ∀ (s : List Char) (l : Nat), l ≤ (s.takeWhile p).length →
      ∀ x ∈ s.take l, p x = true := by
  intro s
  induction s with
  | nil => intro l _ x hx; simp at hx
  | cons c cs ih =>
    intro l hl x hx
    rw [List.takeWhile_cons] at hl
    cases hp : p c with
    | false =>
      rw [hp] at hl
      simp only [Bool.false_eq_true, if_false, List.length_nil,
        Nat.le_zero] at hl
      subst hl
      simp at hx
    | true =>
      rw [hp] at hl
      simp only [if_true, List.length_cons] at hl
      cases l with
      | zero => simp at hx
      | succ l =>
        rw [List.take_succ_cons] at hx
        rcases List.mem_cons.mp hx with h | h
        · rw [h]; exact hp
        · exact ih l (by omega) x h

/-- Predicate of an item. -/
def RItem.pred : RItem → Char → Bool
  | .one p => p
  | .rep p _ _ => p

/-- Every chunk returned by the matcher consists of characters of the
corresponding item's class. -/
def ChunksOK (items : List RItem) (gs : List (List Char)) : Prop :=
  List.Forall₂ (fun it g => ∀ x ∈ g, RItem.pred it x = true) items gs

theorem matchItems_chunks :
    ∀ (items : List RItem) (s : List Char) (gs : List (List Char))
      (r : List Char), matchItems items s = some (gs, r) → ChunksOK items gs := by
  intro items
  induction items with
  | nil =>
    intro s gs r h
    rw [matchItems] at h
    cases h
    exact List.Forall₂.nil
  | cons it rest ih =>
    intro s gs r h
    cases it with
    | one p =>
      cases s with
      | nil => exact absurd h (by rw [matchItems]; simp)
      | cons c cs =>
        rw [matchItems] at h
        by_cases hp : p c = true
        · rw [if_pos hp] at h
          cases hm : matchItems rest cs with
          | none => rw [hm] at h; cases h
          | some pr =>
            obtain ⟨gs', r'⟩ := pr
            rw [hm] at h
            cases h
            refine List.Forall₂.cons ?_ (ih cs gs' _ hm)
            intro x hx
            rw [List.mem_singleton] at hx
            rw [hx]
            exact hp
        · rw [if_neg hp] at h; cases h
    | rep p a g =>
      rw [matchItems] at h
      by_cases hL : ((s.takeWhile p).length) < (if a then 1 else 0)
      · rw [if_pos hL] at h; cases h
      · rw [if_neg hL] at h
        have key : ∀ l, l ≤ (s.takeWhile p).length →
            (match matchItems rest (s.drop l) with
              | some (gs, r) => some (s.take l :: gs, r)
              | none => none) = some (gs, r) → ChunksOK (RItem.rep p a g :: rest) gs := by
          intro l hl hsome
          cases hm : matchItems rest (s.drop l) with
          | none => rw [hm] at hsome; cases hsome
          | some pr =>
            obtain ⟨gs', r'⟩ := pr
            rw [hm] at hsome
            cases hsome
            exact List.Forall₂.cons (take_pred_of_le_takeWhile p s l hl)
              (ih _ gs' _ hm)
        by_cases hg : g = true
        · rw [if_pos hg] at h
          obtain ⟨l, _, hub, hf⟩ := tryDown_eq_some _ h
          exact key l (by omega) hf
        · rw [if_neg hg] at h
          obtain ⟨l, _, hub, hf⟩ := tryUp_eq_some _ _ h
          exact key l (by omega) hf

/-! ### Preservation of non-whitespace content -/

/-- The non-whitespace content of a string (claim C9's invariant is stated
about this projection). -/
def filterNS (l : List Char) : List Char := l.filter isNonSp

/-- A chunk of whitespace characters vanishes under `filterNS`. -/
theorem filterNS_all_space {g : List Char}
    (h : ∀ x ∈ g, isPySpace x = true) : filterNS g = [] := by
  rw [filterNS, List.filter_eq_nil_iff]
  intro x hx
  rw [isNonSp, h x hx]
  simp

/-- A replacement template is content-preserving when, for chunk lists the
pattern can produce, its output has the same non-whitespace content as the
matched text. -/
def ReplOK (items : List RItem) (repl : List (List Char) → List Char) : Prop :=
  ∀ gs, ChunksOK items gs → filterNS (repl gs) = filterNS gs.flatten

/-- A substitution with a content-preserving template preserves the
non-whitespace content of the whole string. -/
theorem subAllGo_filterNS {items : List RItem}
    {repl : List (List Char) → List Char} (hR : ReplOK items repl) :
    ∀ (fuel : Nat) (s : List Char),
      filterNS (subAllGo items repl fuel s) = filterNS s := by
  intro fuel
  induction fuel with
  | zero => intro s; cases s <;> rfl
  | succ fuel ih =>
    intro s
    cases s with
    | nil => rfl
    | cons c cs =>
      rw [subAllGo]
      cases hm : matchItems items (c :: cs) with
      | none =>
        have hcs := ih cs
        simp only [filterNS] at hcs ⊢
        simp only [List.filter_cons, hcs]
      | some pr =>
        obtain ⟨gs, r⟩ := pr
        have hflat := matchItems_flatten _ _ _ _ hm
        have hch := matchItems_chunks _ _ _ _ hm
        calc filterNS (repl gs ++ subAllGo items repl fuel r)
            = filterNS (repl gs) ++ filterNS (subAllGo items repl fuel r) := by
              rw [filterNS, filterNS, filterNS, List.filter_append]
          _ = filterNS gs.flatten ++ filterNS r := by rw [hR gs hch, ih r]
          _ = filterNS (gs.flatten ++ r) := by
              rw [filterNS, filterNS, filterNS, List.filter_append]
          _ = filterNS (c :: cs) := by rw [hflat]

theorem subAll_filterNS {items : List RItem}
    {repl : List (List Char) → List Char} (hR : ReplOK items repl)
    (s : List Char) : filterNS (subAll items repl s) = filterNS s :=
  subAllGo_filterNS hR s.length s

/-- The space character is whitespace (used when templates insert `' '`). -/
theorem nonSp_space : isNonSp ' ' = false := by decide

/-- Characters of the literal-space class are whitespace. -/
theorem spaceLit_pySpace {x : Char} (h : isSpaceLit x = true) :
    isPySpace x = true := by
  simp only [isSpaceLit, isPySpace, inR, cp, beq_iff_eq, Bool.or_eq_true,
    decide_eq_true_eq] at h ⊢
  omega

/-- `\1 \2`-style templates preserve non-whitespace content for any
two-item pattern. -/
theorem replok_12sp (i1 i2 : RItem) : ReplOK [i1, i2] repl12sp := by
  intro gs h
  cases h with
  | cons h1 h' =>
    cases h' with
    | cons h2 h'' =>
      cases h''
      simp [repl12sp, filterNS, List.filter_append, List.filter_cons,
        nonSp_space]

/-- `\1 \2 \3`-style templates preserve non-whitespace content for any
three-item pattern. -/
theorem replok_op (i1 i2 i3 : RItem) : ReplOK [i1, i2, i3] replOp := by
  intro gs h
  cases h with
  | cons h1 h' =>
    cases h' with
    | cons h2 h'' =>
      cases h'' with
      | cons h3 h3' =>
        cases h3'
        simp [replOp, filterNS, List.filter_append, List.filter_cons,
          nonSp_space]

/-- `\1\2 \3`-style templates preserve non-whitespace content. -/
theorem replok_sym (i1 i2 i3 : RItem) : ReplOK [i1, i2, i3] replSym := by
  intro gs h
  cases h with
  | cons h1 h' =>
    cases h' with
    | cons h2 h'' =>
      cases h'' with
      | cons h3 h3' =>
        cases h3'
        simp [replSym, filterNS, List.filter_append, List.filter_cons,
          nonSp_space]

/-- The `CJK_HASH_RE` template preserves non-whitespace content. -/
theorem replok_hashA (i1 i2 i3 : RItem) : ReplOK [i1, i2, i3] replHashA := by
  intro gs h
  cases h with
  | cons h1 h' =>
    cases h' with
    | cons h2 h'' =>
      cases h'' with
      | cons h3 h3' =>
        cases h3'
        simp [replHashA, filterNS, List.filter_append, List.filter_cons,
          nonSp_space]

/-- The `HASH_CJK_RE` template preserves non-whitespace content. -/
theorem replok_hashB (i1 i2 i3 : RItem) : ReplOK [i1, i2, i3] replHashB := by
  intro gs h
  cases h with
  | cons h1 h' =>
    cases h' with
    | cons h2 h'' =>
      cases h'' with
      | cons h3 h3' =>
        cases h3'
        simp [replHashB, filterNS, List.filter_append, List.filter_cons,
          nonSp_space]

/-- The `CJK_BRACKET_CJK_RE` template preserves non-whitespace content. -/
theorem replok_cbc (i1 i2 i3 i4 i5 : RItem) :
    ReplOK [i1, i2, i3, i4, i5] replCBC := by
  intro gs h
  cases h with
  | cons h1 h' =>
    cases h' with
    | cons h2 h'' =>
      cases h'' with
      | cons h3 h3' =>
        cases h3' with
        | cons h4 h4' =>
          cases h4' with
          | cons h5 h5' =>
            cases h5'
            simp [replCBC, filterNS, List.filter_append, List.filter_cons,
              nonSp_space]

/-- The `\1\3\5` template preserves non-whitespace content when the dropped
groups 2 and 4 match only whitespace, as in `FIX_QUOTE_RE` and
`FIX_BRACKET_RE`. -/
theorem replok_135 (i1 i3 i5 : RItem) :
    ReplOK [i1, RItem.rep isPySpace false true, i3,
      RItem.rep isPySpace false true, i5] repl135 := by
  intro gs h
  cases h with
  | cons h1 h' =>
    cases h' with
    | cons h2 h'' =>
      cases h'' with
      | cons h3 h3' =>
        cases h3' with
        | cons h4 h4' =>
          cases h4' with
          | cons h5 h5' =>
            cases h5'
            have e2 := filterNS_all_space h2
            have e4 := filterNS_all_space h4
            simp only [filterNS] at e2 e4
            simp [repl135, filterNS, List.filter_append, e2, e4]

/-- The `\1\3\4` template preserves non-whitespace content when the dropped
group 2 is the literal space, as in `FIX_SINGLE_QUOTE_RE`. -/
theorem replok_134 (i1 i3 i4 : RItem) :
    ReplOK [i1, RItem.one isSpaceLit, i3, i4] repl134 := by
  intro gs h
  cases h with
  | cons h1 h' =>
    cases h' with
    | cons h2 h'' =>
      cases h'' with
      | cons h3 h3' =>
        cases h3' with
        | cons h4 h4' =>
          cases h4'
          have e2 := filterNS_all_space (fun x hx => spaceLit_pySpace (h2 x hx))
          simp only [filterNS] at e2
          simp [repl134, filterNS, List.filter_append, e2]

/-! ### The final strip -/

/-- Dropping leading whitespace does not change the non-whitespace
content. -/
theorem filterNS_dropWhile :
    ∀ l : List Char, filterNS (l.dropWhile isPySpace) = filterNS l := by
  intro l
  induction l with
  | nil => rfl
  | cons c cs ih =>
    rw [List.dropWhile_cons]
    cases hp : isPySpace c with
    | false => simp
    | true =>
      simp only [if_true]
      rw [ih, filterNS, filterNS, List.filter_cons]
      have hc : isNonSp c = false := by rw [isNonSp, hp]; rfl
      rw [hc]
      simp

/-- `filterNS` commutes with `reverse`. -/
theorem filterNS_reverse (l : List Char) :
    filterNS l.reverse = (filterNS l).reverse := by
  rw [filterNS, filterNS]
  exact List.filter_reverse _ _

/-- `str.strip()` does not change the non-whitespace content. -/
theorem filterNS_pyStrip (l : List Char) : filterNS (pyStrip l) = filterNS l := by
  rw [pyStrip, filterNS_reverse, filterNS_dropWhile, filterNS_reverse,
    filterNS_dropWhile]
  simp

/-- The head of a `dropWhile` result no longer satisfies the predicate. -/
theorem dropWhile_head_pred {p : Char → Bool} :
    ∀ {l : List Char} {c : Char}, (l.dropWhile p).head? = some c →
      p c = false := by
  intro l
  induction l with
  | nil => intro c h; simp at h
  | cons x xs ih =>
    intro c h
    rw [List.dropWhile_cons] at h
    by_cases hp : p x = true
    · rw [if_pos hp] at h
      exact ih h
    · rw [if_neg hp] at h
      simp only [List.head?_cons, Option.some.injEq] at h
      subst h
      exact Bool.not_eq_true _ ▸ Bool.eq_false_iff.mpr hp

/-- `pyStrip l` is an initial segment of `l.dropWhile isPySpace`. -/
theorem pyStrip_isPre (l : List Char) :
    pyStrip l <+: l.dropWhile isPySpace := by
  rw [pyStrip, ← List.reverse_suffix, List.reverse_reverse]
  exact List.dropWhile_suffix isPySpace

/-- The first character of a stripped string is not whitespace. -/
theorem pyStrip_head {l : List Char} {c : Char}
    (h : (pyStrip l).head? = some c) : isPySpace c = false := by
  obtain ⟨t, ht⟩ := pyStrip_isPre l
  apply dropWhile_head_pred (l := l)
  rw [← ht]
  cases hs : pyStrip l with
  | nil => rw [hs] at h; simp at h
  | cons y ys =>
    rw [hs] at h
    simp only [List.head?_cons, Option.some.injEq] at h
    subst h
    simp [hs]

/-- The last character of a stripped string is not whitespace. -/
theorem pyStrip_getLast {l : List Char} {c : Char}
    (h : (pyStrip l).getLast? = some c) : isPySpace c = false := by
  rw [← List.head?_reverse] at h
  rw [pyStrip, List.reverse_reverse] at h
  exact dropWhile_head_pred h

/- Content preservation, instantiated at each pattern of the source. -/

theorem replok_p1 : ReplOK CJK_QUOTE_RE repl12sp := replok_12sp _ _
theorem replok_p2 : ReplOK QUOTE_CJK_RE repl12sp := replok_12sp _ _
theorem replok_p3 : ReplOK FIX_QUOTE_RE repl135 := replok_135 _ _ _
theorem replok_p4 : ReplOK FIX_SINGLE_QUOTE_RE repl134 := replok_134 _ _ _
theorem replok_p5 : ReplOK CJK_HASH_RE replHashA := replok_hashA _ _ _
theorem replok_p6 : ReplOK HASH_CJK_RE replHashB := replok_hashB _ _ _
theorem replok_p7 : ReplOK CJK_OPERATOR_ANS_RE replOp := replok_op _ _ _
theorem replok_p8 : ReplOK ANS_OPERATOR_CJK_RE replOp := replok_op _ _ _
theorem replok_p9 : ReplOK CJK_BRACKET_CJK_RE replCBC := replok_cbc _ _ _ _ _
theorem replok_p10 : ReplOK CJK_BRACKET_RE repl12sp := replok_12sp _ _
theorem replok_p11 : ReplOK BRACKET_CJK_RE repl12sp := replok_12sp _ _
theorem replok_p12 : ReplOK FIX_BRACKET_RE repl135 := replok_135 _ _ _
theorem replok_p13 : ReplOK FIX_SYMBOL_RE replSym := replok_sym _ _ _
theorem replok_p14 : ReplOK CJK_ANS_RE repl12sp := replok_12sp _ _
theorem replok_p15 : ReplOK ANS_CJK_RE repl12sp := replok_12sp _ _

/-- Both branches of the bracket stage preserve non-whitespace content. -/
theorem filterNS_bracketPhase (t : List Char) :
    filterNS (bracketPhase t) = filterNS t := by
  simp only [bracketPhase]
  by_cases h : t = subAll CJK_BRACKET_CJK_RE replCBC t
  · rw [if_pos h, subAll_filterNS replok_p11, subAll_filterNS replok_p10,
      subAll_filterNS replok_p9]
  · rw [if_neg h, subAll_filterNS replok_p9]

/-- Claim C9: for every input string, the subsequence of non-whitespace
code points of `spacing_text text` equals that of `text` — every rewrite in
the pipeline only inserts spaces or deletes whitespace, and never modifies,
reorders, duplicates or deletes a non-whitespace character. -/
theorem C9_content_preserved (s : List Char) :
    filterNS (spacing_text s) = filterNS s := by
  by_cases h : s.length < 2
  · rw [spacing_text, if_pos h]
  · simp only [spacing_text, h, if_false, filterNS_pyStrip,
      filterNS_bracketPhase, subAll_filterNS replok_p1,
      subAll_filterNS replok_p2, subAll_filterNS replok_p3,
      subAll_filterNS replok_p4, subAll_filterNS replok_p5,
      subAll_filterNS replok_p6, subAll_filterNS replok_p7,
      subAll_filterNS replok_p8, subAll_filterNS replok_p12,
      subAll_filterNS replok_p13, subAll_filterNS replok_p14,
      subAll_filterNS replok_p15]

/-! ### Claims -/

/-- Claim C1: `spacing_text` applied to the README example
"當你凝視著bug，bug也凝視著你" returns exactly
"當你凝視著 bug，bug 也凝視著你". -/
theorem C1_readme_example :
    spacing_textS ("當你凝視著bug，bug也凝視著你") = "當你凝視著 bug，bug 也凝視著你" := by
  decide

/-- Claim C3: `spacing_text` is idempotent on the section-8 representative
inputs — re-applying the pipeline to its own (already correctly spaced)
output changes nothing. -/
theorem C3_idempotent_representatives :
    spacing_textS (spacing_textS ("當你凝視著bug，bug也凝視著你")) =
      spacing_textS ("當你凝視著bug，bug也凝視著你") ∧
    spacing_textS (spacing_textS ("這是一個ANDROID APP")) =
      spacing_textS ("這是一個ANDROID APP") ∧
    spacing_textS (spacing_textS ("「繁體字」與\"簡體字\"")) =
      spacing_textS ("「繁體字」與\"簡體字\"") ∧
    spacing_textS (spacing_textS ("你好#world")) = spacing_textS ("你好#world") ∧
    spacing_textS (spacing_textS ("hello#你好")) = spacing_textS ("hello#你好") ∧
    spacing_textS (spacing_textS ("影片（個人電腦遊戲）")) =
      spacing_textS ("影片（個人電腦遊戲）") ∧
    spacing_textS (spacing_textS ("")) = spacing_textS ("") := by
  decide

/-- Claim C4, counterexample: on "影片（個人電腦遊戲）" the pipeline inserts no
space at all — the output equals the input, which contains no space — because
the fullwidth parentheses U+FF08/U+FF09 belong to none of the pattern
classes (in particular not to the bracket classes and not to the CJK
class). -/
theorem C4_counterexample :
    spacing_textS ("影片（個人電腦遊戲）") = "影片（個人電腦遊戲）" ∧
    ' ' ∉ ("影片（個人電腦遊戲）").data ∧
    isOpenB '（' = false ∧ isCloseB '）' = false ∧ isOpenB2 '（' = false ∧
    isCloseB2 '）' = false ∧ isCJK '（' = false ∧ isCJK '）' = false := by
  decide

/-- Claim C4, amended: `spacing_text` returns "影片（個人電腦遊戲）" unchanged;
the fullwidth parentheses are outside every bracket class of the source, so
neither the CJK-bracket-CJK rule nor the single-sided bracket rules apply
to this input. -/
theorem C4_amended :
    spacing_textS ("影片（個人電腦遊戲）") = "影片（個人電腦遊戲）" := by decide

/-- Claim C6: inside `spacing_text`, the single-sided bracket substitutions
run exactly when the CJK-bracket-CJK collapsing substitution left the
string unchanged; when the collapse changed the string, both single-sided
substitutions are skipped.  The branch is decided by comparing the pre- and
post-substitution strings for equality. -/
theorem C6_bracket_fallback :
    (∀ t : List Char, subAll CJK_BRACKET_CJK_RE replCBC t = t →
      bracketPhase t =
        subAll BRACKET_CJK_RE repl12sp (subAll CJK_BRACKET_RE repl12sp t)) ∧
    (∀ t : List Char, subAll CJK_BRACKET_CJK_RE replCBC t ≠ t →
      bracketPhase t = subAll CJK_BRACKET_CJK_RE replCBC t) := by
  constructor
  · intro t h
    simp only [bracketPhase]
    rw [if_pos h.symm, h]
  · intro t h
    simp only [bracketPhase]
    rw [if_neg (fun e => h e.symm)]

/-- Witness for C6: on "中(a)中" the collapsing substitution fires (so the
stage returns its output and the single-sided rules are skipped), while on
"中(a)" it does not fire (so the single-sided rules run). -/
theorem C6_witness :
    bracketPhase (("中(a)中").data) =
      subAll CJK_BRACKET_CJK_RE replCBC (("中(a)中").data) ∧
    bracketPhase (("中(a)").data) =
      subAll BRACKET_CJK_RE repl12sp
        (subAll CJK_BRACKET_RE repl12sp (("中(a)").data)) :=
  ⟨C6_bracket_fallback.2 _ (by decide), C6_bracket_fallback.1 _ (by decide)⟩

/-- Claim C7: an input of fewer than two code points is returned unchanged —
no rule is applied and no whitespace is stripped. -/
theorem C7_short_unchanged (s : List Char) (h : s.length < 2) :
    spacing_text s = s := by
  rw [spacing_text, if_pos h]

/-- Witness for C7: the single-whitespace input keeps its whitespace. -/
theorem C7_witness :
    (" ").data.length < 2 ∧ spacing_text ((" ").data) = (" ").data :=
  ⟨by decide, C7_short_unchanged _ (by decide)⟩

/-- Claim C8, counterexample: the final `strip` also removes whitespace that
was present in the input, not only whitespace produced by the
transformation — the leading space of " 中a" came from the input and is gone
from the output. -/
theorem C8_counterexample :
    (" 中a").data.head? = some ' ' ∧ isPySpace ' ' = true ∧
    spacing_textS (" 中a") = "中 a" := by decide

/-- Claim C8, amended: for every input of at least two code points the
output has no leading and no trailing whitespace; the strip is applied
exactly once, on the final result after all rules, and removes any end
whitespace — whether produced by the transformation or already present in
the input. -/
theorem C8_stripped_ends (s : List Char) (h : 2 ≤ s.length) :
    (∀ c, (spacing_text s).head? = some c → isPySpace c = false) ∧
    (∀ c, (spacing_text s).getLast? = some c → isPySpace c = false) := by
  have hn : ¬s.length < 2 := by omega
  rw [spacing_text, if_neg hn]
  constructor <;> intro c hc
  · exact pyStrip_head hc
  · exact pyStrip_getLast hc

/-- Witness for C8: on " 中a" the first output character is 中, which is not
whitespace. -/
theorem C8_witness :
    (spacing_text ((" 中a").data)).head? = some '中' ∧ isPySpace '中' = false :=
  ⟨by decide, (C8_stripped_ends ((" 中a").data) (by decide)).1 '中' (by decide)⟩

/-- Claim C10: the quote-cleanup and bracket-cleanup substitutions treat
disjoint spans independently: with two quoted (resp. bracketed) spans, the
non-greedy inner match removes the incidental whitespace inside each span,
and does not pair the first opening delimiter with the last closing
delimiter (which would instead produce the third listed string). -/
theorem C10_multispan_cleanup :
    subAll FIX_QUOTE_RE repl135 (("\" a \" m \" b \"").data) =
      ("\"a\" m \"b\"").data ∧
    subAll FIX_BRACKET_RE repl135 (("( a ) m ( b )").data) =
      ("(a) m (b)").data ∧
    ("\"a\" m \"b\"").data ≠ ("\"a \" m \" b\"").data := by
  decide

/-! ### Character-class facts used by the symbolic claims -/

/-- Class memberships of the space character. -/
theorem sp_facts : isCJK ' ' = false ∧ isCJKRed ' ' = false ∧
    isQuote ' ' = false ∧ isOpenFix ' ' = false ∧ isCloseFix ' ' = false ∧
    isPySpace ' ' = true ∧ isNonSp ' ' = false ∧ isDot ' ' = true ∧
    isHash ' ' = false ∧ isSpaceLit ' ' = true ∧ isSQ ' ' = false ∧
    isAZ ' ' = false ∧ isAlnum ' ' = false ∧ isOp ' ' = false ∧
    isOpenB ' ' = false ∧ isCloseB ' ' = false ∧ isOpenB2 ' ' = false ∧
    isCloseB2 ' ' = false ∧ isSymB ' ' = false ∧ isAnsA ' ' = false ∧
    isAnsB ' ' = false := by decide

/-- A CJK character belongs to no other class of the program. -/
theorem cjk_facts {c : Char} (h : isCJK c = true) :
    isQuote c = false ∧ isOpenFix c = false ∧ isCloseFix c = false ∧
    isPySpace c = false ∧ isNonSp c = true ∧ isDot c = true ∧
    isHash c = false ∧ isSpaceLit c = false ∧ isSQ c = false ∧
    isAZ c = false ∧ isAlnum c = false ∧ isOp c = false ∧
    isOpenB c = false ∧ isCloseB c = false ∧ isOpenB2 c = false ∧
    isCloseB2 c = false ∧ isSymB c = false ∧ isAnsA c = false ∧
    isAnsB c = false := by
  simp only [isCJK, isQuote, isOpenFix, isCloseFix, isPySpace, isNonSp, isDot,
    isHash, isSpaceLit, isSQ, isAZ, isAlnum, isOp, isOpenB, isCloseB, isOpenB2,
    isCloseB2, isSymB, isAnsA, isAnsB, inR, cp, decide_eq_true_eq,
    Bool.or_eq_true, beq_iff_eq, Bool.not_eq_true', Bool.not_eq_false',
    Bool.or_eq_false_iff, beq_eq_false_iff_ne, ne_eq, decide_eq_false_iff_not,
    not_and, not_le] at h ⊢
  omega

/-- A straight quote belongs to the `FIX_QUOTE_RE` delimiter classes and to
no other class of the program. -/
theorem quote_facts {q : Char} (h : isQuote q = true) :
    isCJK q = false ∧ isCJKRed q = false ∧ isOpenFix q = true ∧
    isCloseFix q = true ∧ isPySpace q = false ∧ isNonSp q = true ∧
    isDot q = true ∧ isHash q = false ∧ isSpaceLit q = false ∧
    isAZ q = false ∧ isAlnum q = false ∧ isOp q = false ∧
    isOpenB q = false ∧ isCloseB q = false ∧ isOpenB2 q = false ∧
    isCloseB2 q = false ∧ isSymB q = false ∧ isAnsA q = false ∧
    isAnsB q = false := by
  simp only [isCJK, isCJKRed, isQuote, isOpenFix, isCloseFix, isPySpace,
    isNonSp, isDot, isHash, isSpaceLit, isAZ, isAlnum, isOp, isOpenB,
    isCloseB, isOpenB2, isCloseB2, isSymB, isAnsA, isAnsB, inR, cp,
    decide_eq_true_eq, Bool.or_eq_true, beq_iff_eq, Bool.not_eq_true',
    Bool.not_eq_false', Bool.or_eq_false_iff, beq_eq_false_iff_ne, ne_eq,
    decide_eq_false_iff_not, not_and, not_le] at h ⊢
  omega

/-- The reduced CJK class of `QUOTE_CJK_RE` is contained in the full one. -/
theorem cjkRed_cjk {c : Char} (h : isCJKRed c = true) : isCJK c = true := by
  simp only [isCJK, isCJKRed, inR, cp, decide_eq_true_eq, Bool.or_eq_true]
    at h ⊢
  omega

/-- A `CJK_ANS_RE` second-class character belongs to none of the classes
that the earlier passes test on a two-character input. -/
theorem ansA_facts {a : Char} (h : isAnsA a = true) :
    isCJK a = false ∧ isCJKRed a = false ∧ isQuote a = false ∧
    isOpenFix a = false ∧ isCloseFix a = false ∧ isPySpace a = false ∧
    isNonSp a = true ∧ isDot a = true ∧ isHash a = false ∧
    isSpaceLit a = false ∧ isSQ a = false ∧ isOpenB a = false ∧
    isCloseB a = false ∧ isOpenB2 a = false ∧ isCloseB2 a = false ∧
    isSymB a = false := by
  simp only [isCJK, isCJKRed, isQuote, isOpenFix, isCloseFix, isPySpace,
    isNonSp, isDot, isHash, isSpaceLit, isSQ, isOpenB, isCloseB, isOpenB2,
    isCloseB2, isSymB, isAnsA, isAlnum, inR, cp, decide_eq_true_eq,
    Bool.or_eq_true, beq_iff_eq, Bool.not_eq_true', Bool.not_eq_false',
    Bool.or_eq_false_iff, beq_eq_false_iff_ne, ne_eq, decide_eq_false_iff_not,
    not_and, not_le] at h ⊢
  omega

/-- An `ANS_CJK_RE` first-class character belongs to none of the classes
that the other passes test on a two-character input. -/
theorem ansB_facts {a : Char} (h : isAnsB a = true) :
    isCJK a = false ∧ isCJKRed a = false ∧ isQuote a = false ∧
    isOpenFix a = false ∧ isCloseFix a = false ∧ isPySpace a = false ∧
    isNonSp a = true ∧ isDot a = true ∧ isHash a = false ∧
    isSpaceLit a = false ∧ isSQ a = false ∧ isOpenB a = false ∧
    isCloseB a = false ∧ isOpenB2 a = false ∧ isCloseB2 a = false := by
  simp only [isCJK, isCJKRed, isQuote, isOpenFix, isCloseFix, isPySpace,
    isNonSp, isDot, isHash, isSpaceLit, isSQ, isOpenB, isCloseB, isOpenB2,
    isCloseB2, isAnsB, isAlnum, inR, cp, decide_eq_true_eq,
    Bool.or_eq_true, beq_iff_eq, Bool.not_eq_true', Bool.not_eq_false',
    Bool.or_eq_false_iff, beq_eq_false_iff_ne, ne_eq, decide_eq_false_iff_not,
    not_and, not_le] at h ⊢
  omega

/-- The spec's ANS class without `~` and `…` is exactly the code's
`CJK_ANS_RE` second class. -/
theorem ansSpec_to_A {a : Char} (h : isAnsSpec a = true) (h1 : cp a ≠ 0x7e)
    (h2 : cp a ≠ 0x2026) : isAnsA a = true := by
  simp only [isAnsSpec, isAnsA, isAlnum, inR, cp, decide_eq_true_eq,
    Bool.or_eq_true, beq_iff_eq] at h ⊢
  simp only [cp] at h1 h2
  omega

/-- The spec's ANS class without `@` is contained in the code's
`ANS_CJK_RE` first class. -/
theorem ansSpec_to_B {a : Char} (h : isAnsSpec a = true) (h1 : cp a ≠ 0x40) :
    isAnsB a = true := by
  simp only [isAnsSpec, isAnsB, isAlnum, inR, cp, decide_eq_true_eq,
    Bool.or_eq_true, beq_iff_eq] at h ⊢
  simp only [cp] at h1
  omega


/- The same memberships, as individual rewrite rules. -/
theorem spCJK : isCJK ' ' = false := by decide
theorem spCJKRed : isCJKRed ' ' = false := by decide
theorem spQuote : isQuote ' ' = false := by decide
theorem spOpenFix : isOpenFix ' ' = false := by decide
theorem spCloseFix : isCloseFix ' ' = false := by decide
theorem spPySpace : isPySpace ' ' = true := by decide
theorem spNonSp : isNonSp ' ' = false := by decide
theorem spDot : isDot ' ' = true := by decide
theorem spHash : isHash ' ' = false := by decide
theorem spSpaceLit : isSpaceLit ' ' = true := by decide
theorem spSQ : isSQ ' ' = false := by decide
theorem spAZ : isAZ ' ' = false := by decide
theorem spAlnum : isAlnum ' ' = false := by decide
theorem spOp : isOp ' ' = false := by decide
theorem spOpenB : isOpenB ' ' = false := by decide
theorem spCloseB : isCloseB ' ' = false := by decide
theorem spOpenB2 : isOpenB2 ' ' = false := by decide
theorem spCloseB2 : isCloseB2 ' ' = false := by decide
theorem spSymB : isSymB ' ' = false := by decide
theorem spAnsA : isAnsA ' ' = false := by decide
theorem spAnsB : isAnsB ' ' = false := by decide

/-- Claim C5, counterexample: U+2E80 is in the section-3 CJK ranges, yet a
quote directly followed by it gets no space — `QUOTE_CJK_RE` uses a reduced
CJK class that omits U+2E80-2EFF and U+2F00-2FDF. -/
theorem C5_counterexample :
    isCJK '⺀' = true ∧ cp '⺀' = 0x2e80 ∧ isQuote '"' = true ∧
    isCJKRed '⺀' = false ∧
    spacing_textS ("\"⺀") = "\"⺀" ∧ spacing_textS ("\"⺀") ≠ "\" ⺀" := by
  decide

/-- Claim C5, amended: for adjacent CJK and quote characters (as a
two-character input), a space is inserted in the CJK-then-quote order for
every section-3 CJK character, but in the quote-then-CJK order only for the
reduced ranges of `QUOTE_CJK_RE` (the section-3 ranges without U+2E80-2EFF
and U+2F00-2FDF). -/
theorem C5_quote_spacing (c q : Char) (hq : isQuote q = true) :
    (isCJK c = true → spacing_text [c, q] = [c, ' ', q]) ∧
    (isCJKRed c = true → spacing_text [q, c] = [q, ' ', c]) := by
  obtain ⟨q1, q2, q3, q4, q5, q6, q7, q8, q9, q10, q11, q12, q13, q14, q15,
    q16, q17, q18, q19⟩ := quote_facts hq
  constructor
  · intro hc
    obtain ⟨c1, c2, c3, c4, c5, c6, c7, c8, c9, c10, c11, c12, c13, c14, c15,
      c16, c17, c18, c19⟩ := cjk_facts hc
    have h1 : subAll CJK_QUOTE_RE repl12sp [c, q] = [c, ' ', q] := by
      simp [subAll, subAllGo, matchItems, CJK_QUOTE_RE, repl12sp, hc, hq, q1]
    have h2 : subAll ANS_OPERATOR_CJK_RE replOp (subAll CJK_OPERATOR_ANS_RE
        replOp (subAll HASH_CJK_RE replHashB (subAll CJK_HASH_RE replHashA
        (subAll FIX_SINGLE_QUOTE_RE repl134 (subAll FIX_QUOTE_RE repl135
        (subAll QUOTE_CJK_RE repl12sp [c, ' ', q])))))) = [c, ' ', q] := by
      simp [subAll, subAllGo, matchItems, tryDown, tryUp, QUOTE_CJK_RE,
        FIX_QUOTE_RE, FIX_SINGLE_QUOTE_RE, CJK_HASH_RE, HASH_CJK_RE,
        CJK_OPERATOR_ANS_RE, ANS_OPERATOR_CJK_RE, repl12sp, repl135, repl134,
        replHashA, replHashB, replOp, List.takeWhile, hc, hq, q1, q2, q3, q4,
        q5, q6, q7, q8, q9, q10, q11, q12, q13, q14, q15, q16, q17, q18, q19,
        c1, c2, c3, c4, c5, c6, c7, c8, c9, c10, c11, c12, c13, c14, c15, c16,
        c17, c18, c19, spCJK, spQuote, spOpenFix, spCloseFix, spPySpace,
        spNonSp, spDot, spHash, spSpaceLit, spSQ, spAZ, spAlnum, spOp]
    have hcbc : subAll CJK_BRACKET_CJK_RE replCBC [c, ' ', q] = [c, ' ', q] :=
      subAll_short (by simp [itemsLo, CJK_BRACKET_CJK_RE, RItem.lo])
    have hcb : subAll CJK_BRACKET_RE repl12sp [c, ' ', q] = [c, ' ', q] := by
      simp [subAll, subAllGo, matchItems, CJK_BRACKET_RE, repl12sp, hc, q1,
        q15, spCJK, spOpenB2]
    have hbc : subAll BRACKET_CJK_RE repl12sp [c, ' ', q] = [c, ' ', q] := by
      simp [subAll, subAllGo, matchItems, BRACKET_CJK_RE, repl12sp, hc, q1,
        q16, c16, spCJK, spCloseB2]
    have h3 : bracketPhase [c, ' ', q] = [c, ' ', q] := by
      simp only [bracketPhase]
      rw [hcbc, if_pos rfl, hcb, hbc]
    have h4 : subAll ANS_CJK_RE repl12sp (subAll CJK_ANS_RE repl12sp
        (subAll FIX_SYMBOL_RE replSym (subAll FIX_BRACKET_RE repl135
        [c, ' ', q]))) = [c, ' ', q] := by
      simp [subAll, subAllGo, matchItems, tryDown, tryUp, FIX_BRACKET_RE,
        FIX_SYMBOL_RE, CJK_ANS_RE, ANS_CJK_RE, repl135, replSym, repl12sp,
        List.takeWhile, hc, q1, q13, q14, q17, q18, q19, c13, c14, c17, c18,
        c19, spCJK, spOpenB, spCloseB, spSymB, spAnsA, spAnsB, spPySpace,
        spAlnum]
    have h5 : pyStrip [c, ' ', q] = [c, ' ', q] := by
      simp [pyStrip, List.dropWhile_cons, c4, q5]
    rw [spacing_text, if_neg (by simp)]
    simp only [h1, h2, h3, h4, h5]
  · intro hr
    have hc := cjkRed_cjk hr
    obtain ⟨c1, c2, c3, c4, c5, c6, c7, c8, c9, c10, c11, c12, c13, c14, c15,
      c16, c17, c18, c19⟩ := cjk_facts hc
    have g1 : subAll CJK_QUOTE_RE repl12sp [q, c] = [q, c] := by
      simp [subAll, subAllGo, matchItems, CJK_QUOTE_RE, repl12sp, hc, q1]
    have g2 : subAll QUOTE_CJK_RE repl12sp [q, c] = [q, ' ', c] := by
      simp [subAll, subAllGo, matchItems, QUOTE_CJK_RE, repl12sp, hq, hr, c1]
    have g3 : subAll ANS_OPERATOR_CJK_RE replOp (subAll CJK_OPERATOR_ANS_RE
        replOp (subAll HASH_CJK_RE replHashB (subAll CJK_HASH_RE replHashA
        (subAll FIX_SINGLE_QUOTE_RE repl134 (subAll FIX_QUOTE_RE repl135
        [q, ' ', c]))))) = [q, ' ', c] := by
      simp [subAll, subAllGo, matchItems, tryDown, tryUp,
        FIX_QUOTE_RE, FIX_SINGLE_QUOTE_RE, CJK_HASH_RE, HASH_CJK_RE,
        CJK_OPERATOR_ANS_RE, ANS_OPERATOR_CJK_RE, repl12sp, repl135, repl134,
        replHashA, replHashB, replOp, List.takeWhile, hc, hq, q1, q2, q3, q4,
        q5, q6, q7, q8, q9, q10, q11, q12, q13, q14, q15, q16, q17, q18, q19,
        c1, c2, c3, c4, c5, c6, c7, c8, c9, c10, c11, c12, c13, c14, c15, c16,
        c17, c18, c19, spCJK, spQuote, spOpenFix, spCloseFix, spPySpace,
        spNonSp, spDot, spHash, spSpaceLit, spSQ, spAZ, spAlnum, spOp]
    have hcbc : subAll CJK_BRACKET_CJK_RE replCBC [q, ' ', c] = [q, ' ', c] :=
      subAll_short (by simp [itemsLo, CJK_BRACKET_CJK_RE, RItem.lo])
    have hcb : subAll CJK_BRACKET_RE repl12sp [q, ' ', c] = [q, ' ', c] := by
      simp [subAll, subAllGo, matchItems, CJK_BRACKET_RE, repl12sp, hc, q1,
        q15, spCJK, spOpenB2]
    have hbc : subAll BRACKET_CJK_RE repl12sp [q, ' ', c] = [q, ' ', c] := by
      simp [subAll, subAllGo, matchItems, BRACKET_CJK_RE, repl12sp, hc, q1,
        q16, c16, spCJK, spCloseB2]
    have g4 : bracketPhase [q, ' ', c] = [q, ' ', c] := by
      simp only [bracketPhase]
      rw [hcbc, if_pos rfl, hcb, hbc]
    have g5 : subAll ANS_CJK_RE repl12sp (subAll CJK_ANS_RE repl12sp
        (subAll FIX_SYMBOL_RE replSym (subAll FIX_BRACKET_RE repl135
        [q, ' ', c]))) = [q, ' ', c] := by
      simp [subAll, subAllGo, matchItems, tryDown, tryUp, FIX_BRACKET_RE,
        FIX_SYMBOL_RE, CJK_ANS_RE, ANS_CJK_RE, repl135, replSym, repl12sp,
        List.takeWhile, hc, q1, q13, q14, q17, q18, q19, c13, c14, c17, c18,
        c19, spCJK, spOpenB, spCloseB, spSymB, spAnsA, spAnsB, spPySpace,
        spAlnum]
    have g6 : pyStrip [q, ' ', c] = [q, ' ', c] := by
      simp [pyStrip, List.dropWhile_cons, q5, c4]
    rw [spacing_text, if_neg (by simp)]
    simp only [g1, g2, g3, g4, g5, g6]

/-- Witness for C5: both orderings at 中 and the double quote. -/
theorem C5_witness :
    spacing_text ['中', '"'] = ['中', ' ', '"'] ∧
    spacing_text ['"', '中'] = ['"', ' ', '中'] :=
  ⟨(C5_quote_spacing '中' '"' (by decide)).1 (by decide),
   (C5_quote_spacing '中' '"' (by decide)).2 (by decide)⟩

/-- Claim C2, counterexample: `~` and `@` are in the spec's ANS class, yet
the pipeline inserts no space in "中~" (the `CJK_ANS_RE` class omits `~`
and U+2026) nor in "@中" (the `ANS_CJK_RE` class omits `@`). -/
theorem C2_counterexample :
    isCJK '中' = true ∧ isAnsSpec '~' = true ∧ isAnsSpec '@' = true ∧
    spacing_textS ("中~") = "中~" ∧ spacing_textS ("中~") ≠ "中 ~" ∧
    spacing_textS ("@中") = "@中" ∧ spacing_textS ("@中") ≠ "@ 中" := by
  decide

/-- Claim C2, amended: for an adjacent CJK/ANS pair (as a two-character
input) a space is inserted in the CJK-then-ANS order for every ANS
character except `~` and U+2026, and in the ANS-then-CJK order for every
ANS character except `@` — matching the classes of `CJK_ANS_RE` and
`ANS_CJK_RE` in the source. -/
theorem C2_ans_spacing (c a : Char) (hc : isCJK c = true)
    (ha : isAnsSpec a = true) :
    (cp a ≠ 0x7e → cp a ≠ 0x2026 → spacing_text [c, a] = [c, ' ', a]) ∧
    (cp a ≠ 0x40 → spacing_text [a, c] = [a, ' ', c]) := by
  obtain ⟨c1, c2, c3, c4, c5, c6, c7, c8, c9, c10, c11, c12, c13, c14, c15,
    c16, c17, c18, c19⟩ := cjk_facts hc
  constructor
  · intro hna hnb
    have hA : isAnsA a = true := ansSpec_to_A ha hna hnb
    obtain ⟨a1, a2, a3, a4, a5, a6, a7, a8, a9, a10, a11, a12, a13, a14, a15,
      a16⟩ := ansA_facts hA
    have h1 : subAll CJK_QUOTE_RE repl12sp [c, a] = [c, a] := by
      simp [subAll, subAllGo, matchItems, CJK_QUOTE_RE, repl12sp, hc, a1, a3]
    have h2 : subAll ANS_OPERATOR_CJK_RE replOp (subAll CJK_OPERATOR_ANS_RE
        replOp (subAll HASH_CJK_RE replHashB (subAll CJK_HASH_RE replHashA
        (subAll FIX_SINGLE_QUOTE_RE repl134 (subAll FIX_QUOTE_RE repl135
        (subAll QUOTE_CJK_RE repl12sp [c, a])))))) = [c, a] := by
      simp [subAll, subAllGo, matchItems, tryDown, tryUp, QUOTE_CJK_RE,
        FIX_QUOTE_RE, FIX_SINGLE_QUOTE_RE, CJK_HASH_RE, HASH_CJK_RE,
        CJK_OPERATOR_ANS_RE, ANS_OPERATOR_CJK_RE, repl12sp, repl135, repl134,
        replHashA, replHashB, replOp, List.takeWhile, hc, c1, c2, c3, c4, c5,
        c6, c7, c8, c9, c10, c11, c12, a1, a2, a3, a4, a5, a6, a7, a8, a9,
        a10, a11]
    have hcbc : subAll CJK_BRACKET_CJK_RE replCBC [c, a] = [c, a] :=
      subAll_short (by simp [itemsLo, CJK_BRACKET_CJK_RE, RItem.lo])
    have hcb : subAll CJK_BRACKET_RE repl12sp [c, a] = [c, a] := by
      simp [subAll, subAllGo, matchItems, CJK_BRACKET_RE, repl12sp, hc, a1,
        a14]
    have hbc : subAll BRACKET_CJK_RE repl12sp [c, a] = [c, a] := by
      simp [subAll, subAllGo, matchItems, BRACKET_CJK_RE, repl12sp, hc, a1,
        a15, c16]
    have h3 : bracketPhase [c, a] = [c, a] := by
      simp only [bracketPhase]
      rw [hcbc, if_pos rfl, hcb, hbc]
    have h4 : subAll ANS_CJK_RE repl12sp (subAll CJK_ANS_RE repl12sp
        (subAll FIX_SYMBOL_RE replSym (subAll FIX_BRACKET_RE repl135
        [c, a]))) = [c, ' ', a] := by
      simp [subAll, subAllGo, matchItems, tryDown, tryUp, FIX_BRACKET_RE,
        FIX_SYMBOL_RE, CJK_ANS_RE, ANS_CJK_RE, repl135, replSym, repl12sp,
        List.takeWhile, hc, hA, c13, c16, c17, c19, a1, a12, a16, spAnsB,
        spCJK, spPySpace]
    have h5 : pyStrip [c, ' ', a] = [c, ' ', a] := by
      simp [pyStrip, List.dropWhile_cons, c4, a6]
    rw [spacing_text, if_neg (by simp)]
    simp only [h1, h2, h3, h4, h5]
  · intro hna
    have hB : isAnsB a = true := ansSpec_to_B ha hna
    obtain ⟨b1, b2, b3, b4, b5, b6, b7, b8, b9, b10, b11, b12, b13, b14,
      b15⟩ := ansB_facts hB
    have g1 : subAll CJK_QUOTE_RE repl12sp [a, c] = [a, c] := by
      simp [subAll, subAllGo, matchItems, CJK_QUOTE_RE, repl12sp, hc, b1]
    have g2 : subAll QUOTE_CJK_RE repl12sp [a, c] = [a, c] := by
      simp [subAll, subAllGo, matchItems, QUOTE_CJK_RE, repl12sp, b3, c1]
    have g3 : subAll ANS_OPERATOR_CJK_RE replOp (subAll CJK_OPERATOR_ANS_RE
        replOp (subAll HASH_CJK_RE replHashB (subAll CJK_HASH_RE replHashA
        (subAll FIX_SINGLE_QUOTE_RE repl134 (subAll FIX_QUOTE_RE repl135
        [a, c]))))) = [a, c] := by
      simp [subAll, subAllGo, matchItems, tryDown, tryUp,
        FIX_QUOTE_RE, FIX_SINGLE_QUOTE_RE, CJK_HASH_RE, HASH_CJK_RE,
        CJK_OPERATOR_ANS_RE, ANS_OPERATOR_CJK_RE, repl12sp, repl135, repl134,
        replHashA, replHashB, replOp, List.takeWhile, hc, c1, c2, c3, c4, c5,
        c6, c7, c8, c9, c10, c11, c12, b1, b2, b3, b4, b5, b6, b7, b8, b9,
        b10, b11]
    have hcbc : subAll CJK_BRACKET_CJK_RE replCBC [a, c] = [a, c] :=
      subAll_short (by simp [itemsLo, CJK_BRACKET_CJK_RE, RItem.lo])
    have hcb : subAll CJK_BRACKET_RE repl12sp [a, c] = [a, c] := by
      simp [subAll, subAllGo, matchItems, CJK_BRACKET_RE, repl12sp, hc, b1,
        c15]
    have hbc : subAll BRACKET_CJK_RE repl12sp [a, c] = [a, c] := by
      simp [subAll, subAllGo, matchItems, BRACKET_CJK_RE, repl12sp, hc, b1,
        b15, c16]
    have g4 : bracketPhase [a, c] = [a, c] := by
      simp only [bracketPhase]
      rw [hcbc, if_pos rfl, hcb, hbc]
    have g5 : subAll ANS_CJK_RE repl12sp (subAll CJK_ANS_RE repl12sp
        (subAll FIX_SYMBOL_RE replSym (subAll FIX_BRACKET_RE repl135
        [a, c]))) = [a, ' ', c] := by
      simp [subAll, subAllGo, matchItems, tryDown, tryUp, FIX_BRACKET_RE,
        FIX_SYMBOL_RE, CJK_ANS_RE, ANS_CJK_RE, repl135, replSym, repl12sp,
        List.takeWhile, hc, hB, c13, c17, c18, c19, b1, b12]
    have g6 : pyStrip [a, ' ', c] = [a, ' ', c] := by
      simp [pyStrip, List.dropWhile_cons, b6, c4]
    rw [spacing_text, if_neg (by simp)]
    simp only [g1, g2, g3, g4, g5, g6]

/-- Witness for C2: both orderings at 中 and the letter A. -/
theorem C2_witness :
    spacing_text ['中', 'A'] = ['中', ' ', 'A'] ∧
    spacing_text ['A', '中'] = ['A', ' ', '中'] :=
  ⟨(C2_ans_spacing '中' 'A' (by decide) (by decide)).1 (by decide) (by decide),
   (C2_ans_spacing '中' 'A' (by decide) (by decide)).2 (by decide)⟩
